import Mathlib

/-!
Shallow embedding of the vision module of the Autonomous-Vehicle repository:
`vision/detect.py` (class `ObjectDetection`) and `vision/start_camera.py`
(class `Camera`).

Modelling conventions:
* Python ints are `ℤ` (bounding-box coordinates come from `map(int, box)`).
* Python/numpy floating-point arithmetic is idealised as exact rational
  arithmetic over `ℚ`; `ℚ`'s division takes the value `0` at a zero
  denominator, standing in for the undefined/infinite float result that the
  unguarded source division produces there.
* The camera matrix is a numpy 3×3 array; only entry `[1, 1]` is read, so it
  is embedded as an index function `Nat → Nat → ℚ`.
* `json.dump` / `json.load` are modelled at the JSON value-tree level: the
  inductive `Json` below is the tree that `json.dump` renders as indented
  UTF-8 text and that `json.load` recovers (Python round-trips strings,
  integers, finite floats, arrays and objects exactly through that text;
  the Python tuple used for `center` is rendered as a JSON array).
* The OpenCV `VideoCapture` handle is the record `Cap`; property writes via
  `cap.set(...)` update the corresponding stored property, `release()`
  closes the device. A raised Python exception is `Except.error`.
-/

/-- A bounding box `[x_min, y_min, x_max, y_max]` in integer pixel
coordinates, as produced by `detect_objects` via `map(int, box)`. -/
structure BBox where
  x_min : ℤ
  y_min : ℤ
  x_max : ℤ
  y_max : ℤ
deriving DecidableEq

/-- One detection as returned by `ObjectDetection.detect_objects`:
a class label together with its bounding box. -/
structure Detection where
  cls : String
  bounding_box : BBox
deriving DecidableEq

namespace ObjectDetection

/-- Embedding of `ObjectDetection.calculate_distance`.  The source computes
`pixel_height = y_max - y_min`, `focal_length = camera_matrix[1, 1]`, and
returns `(object_height * focal_length) / pixel_height` with NO guard on
`pixel_height`: the division is performed unconditionally.  (With a numpy
camera matrix the zero-denominator case yields float `inf`, a returned value,
not a raised error; `ℚ` represents that junk case by `0`.)  `camera_matrix`
is the intrinsic matrix, `object_height` the known object height in meters. -/
def calculate_distance (camera_matrix : Nat → Nat → ℚ) (object_height : ℚ)
    (bounding_box : BBox) : ℚ :=
  let pixel_height : ℤ := bounding_box.y_max - bounding_box.y_min
  let focal_length : ℚ := camera_matrix 1 1
  object_height * focal_length / (pixel_height : ℚ)

/-- Refinement model of the behaviour claimed for `calculate_distance`
(an EXPLICIT guard on `pixel_height == 0`, failing with an error), written
from the spec's words for comparison with the unguarded source function. -/
def calculate_distance_guarded (camera_matrix : Nat → Nat → ℚ)
    (object_height : ℚ) (bounding_box : BBox) : Except String ℚ :=
  let pixel_height : ℤ := bounding_box.y_max - bounding_box.y_min
  if pixel_height = 0 then
    Except.error "Error: pixel height is zero"
  else
    Except.ok (object_height * camera_matrix 1 1 / (pixel_height : ℚ))

/-- Embedding of `ObjectDetection.get_center`.  Python `//` on ints is floor
division, i.e. `Int.fdiv`. -/
def get_center (bounding_box : BBox) : ℤ × ℤ :=
  let center_x := bounding_box.x_min + (bounding_box.x_max - bounding_box.x_min).fdiv 2
  let center_y := bounding_box.y_min + (bounding_box.y_max - bounding_box.y_min).fdiv 2
  (center_x, center_y)

/-- One entry of the `"objects"` list built by `process_frame`: the dict
`{"class": ..., "distance": ..., "center": ...}`. -/
structure ObjRecord where
  cls : String
  distance : ℚ
  center : ℤ × ℤ
deriving DecidableEq

/-- The dict `{"objects": [...]}` that `process_frame` returns and
`save_to_json` serializes. -/
structure ObjectData where
  objects : List ObjRecord
deriving DecidableEq

/-- The loop body of `process_frame` for one detection: compute distance and
center and build the record appended to `object_data["objects"]`. -/
def processRecord (camera_matrix : Nat → Nat → ℚ) (object_height : ℚ)
    (obj : Detection) : ObjRecord :=
  { cls := obj.cls
    distance := calculate_distance camera_matrix object_height obj.bounding_box
    center := get_center obj.bounding_box }

/-- Embedding of `ObjectDetection.process_frame`.  The detector call
`self.detect_objects(frame)` is the external black-box collaborator, so its
output list `detections` is taken as input; the loop appends one record per
detection in order.  (The `draw_bounding_box` side effect mutates the frame
in place and produces no data consumed here.) -/
def process_frame (camera_matrix : Nat → Nat → ℚ) (object_height : ℚ)
    (detections : List Detection) : ObjectData :=
  { objects :=
      detections.foldl (fun acc obj => acc ++ [processRecord camera_matrix object_height obj]) [] }

/-- JSON value trees, the subset produced by `json.dump` on the data of this
program: strings, integers, (finite) floats, arrays, objects. -/
inductive Json where
  | str (s : String)
  | int (n : ℤ)
  | num (q : ℚ)
  | arr (elems : List Json)
  | obj (fields : List (String × Json))

/-- Key lookup in a JSON object, as Python dict access after `json.load`. -/
def Json.getKey (j : Json) (k : String) : Option Json :=
  match j with
  | .obj fields => fields.lookup k
  | _ => none

/-- The keys of a JSON object, in order. -/
def Json.keys : Json → List String
  | .obj fields => fields.map Prod.fst
  | _ => []

/-- JSON encoding of one `"objects"` entry, as `json.dump` writes it: the
`center` tuple becomes a JSON array of its two integers, the `distance`
float a JSON number. -/
def recordToJson (r : ObjRecord) : Json :=
  .obj [("class", .str r.cls),
        ("distance", .num r.distance),
        ("center", .arr [.int r.center.1, .int r.center.2])]

/-- Embedding of `ObjectDetection.save_to_json`: the JSON value tree that
`json.dump(object_data, json_file, indent=4)` renders into the file. -/
def save_to_json (object_data : ObjectData) : Json :=
  .obj [("objects", .arr (object_data.objects.map recordToJson))]

/-- Reloading one record from the parsed file: read the `"class"`,
`"distance"` and `"center"` entries back. -/
def loadRecord (j : Json) : Option ObjRecord :=
  match j.getKey "class", j.getKey "distance", j.getKey "center" with
  | some (.str c), some (.num q), some (.arr [.int x, .int y]) =>
      some { cls := c, distance := q, center := (x, y) }
  | _, _, _ => none

/-- Reloading the list of records, in file order. -/
def loadRecords : List Json → Option (List ObjRecord)
  | [] => some []
  | j :: rest =>
    match loadRecord j, loadRecords rest with
    | some r, some rs => some (r :: rs)
    | _, _ => none

/-- Reloading the whole file written by `save_to_json`: parse the tree, read
the `"objects"` array, decode each record. -/
def json_load_objects (j : Json) : Option ObjectData :=
  match j.getKey "objects" with
  | some (.arr elems) => (loadRecords elems).map fun rs => { objects := rs }
  | _ => none

end ObjectDetection

/-- The stored properties of an OpenCV `VideoCapture` device that this
program writes. -/
inductive CapProp where
  | frameWidth
  | frameHeight
  | fpsProp
deriving DecidableEq

/-- Model of a `cv2.VideoCapture` handle: whether the device is open, and
the three properties the program sets. -/
structure Cap where
  isOpened : Bool
  propWidth : ℤ
  propHeight : ℤ
  propFps : ℤ
deriving DecidableEq

/-- `cap.set(prop, value)`: store the requested property value. -/
def Cap.set (c : Cap) (p : CapProp) (v : ℤ) : Cap :=
  match p with
  | .frameWidth => { c with propWidth := v }
  | .frameHeight => { c with propHeight := v }
  | .fpsProp => { c with propFps := v }

/-- `cap.release()`: close the device (the Python handle object survives,
reporting `isOpened() == False`). -/
def Cap.release (c : Cap) : Cap :=
  { c with isOpened := false }

/-- Embedding of the `Camera` object state: constructor fields `camera_id`,
`width`, `height`, `fps`, and `self.cap`, which is `None` until `start`. -/
structure Camera where
  camera_id : ℤ
  width : ℤ
  height : ℤ
  fps : ℤ
  cap : Option Cap
deriving DecidableEq

namespace Camera

/-- Embedding of `Camera.__init__` (defaults `camera_id=0, width=640,
height=480, fps=60` are supplied at call sites): `self.cap = None`. -/
def init (camera_id width height fps : ℤ) : Camera :=
  { camera_id := camera_id, width := width, height := height, fps := fps, cap := none }

/-- Embedding of `Camera.start`.  `cv2.VideoCapture(camera_id)` is the
external device acquisition, so its result `device` is taken as input;
`self.cap` is assigned first, then the code raises if the device is not
open, else sets width/height/fps on it.  Returns the mutated state together
with the normal/exceptional outcome. -/
def start (cam : Camera) (device : Cap) : Camera × Except String Unit :=
  let cam' := { cam with cap := some device }
  if device.isOpened then
    ({ cam' with
        cap := some (((device.set .frameWidth cam.width).set .frameHeight cam.height).set
          .fpsProp cam.fps) },
      Except.ok ())
  else
    (cam', Except.error "Error: Unable to open the camera")

/-- Embedding of `Camera.get_frame`.  The device read `self.cap.read()` is
external: `readResult = some frame` models `ret == True`, `none` models a
failed read.  Raises when `self.cap is None or not self.cap.isOpened()`,
and when the read fails. -/
def get_frame {F : Type} (cam : Camera) (readResult : Option F) : Except String F :=
  match cam.cap with
  | none => Except.error "Error: Camera is not opened"
  | some c =>
    if c.isOpened then
      match readResult with
      | some frame => Except.ok frame
      | none => Except.error "Error: Failed to capture frame from the camera"
    else
      Except.error "Error: Camera is not opened"

/-- Embedding of `Camera.stop`: release the device only when
`self.cap is not None and self.cap.isOpened()`. -/
def stop (cam : Camera) : Camera :=
  match cam.cap with
  | none => cam
  | some c => if c.isOpened then { cam with cap := some c.release } else cam

/-- Embedding of `Camera.is_opened`:
`self.cap.isOpened() if self.cap else False`. -/
def is_opened (cam : Camera) : Bool :=
  match cam.cap with
  | none => false
  | some c => c.isOpened

/-- Embedding of `Camera.set_resolution`: store the new width/height, then
apply them to the device when it is open. -/
def set_resolution (cam : Camera) (width height : ℤ) : Camera :=
  let cam' := { cam with width := width, height := height }
  match cam'.cap with
  | none => cam'
  | some c =>
    if c.isOpened then
      { cam' with cap := some ((c.set .frameWidth width).set .frameHeight height) }
    else
      cam'

/-- Embedding of `Camera.set_fps`: store the new fps, then apply it to the
device when it is open. -/
def set_fps (cam : Camera) (fps : ℤ) : Camera :=
  let cam' := { cam with fps := fps }
  match cam'.cap with
  | none => cam'
  | some c =>
    if c.isOpened then { cam' with cap := some (c.set .fpsProp fps) } else cam'

end Camera

/-- A camera matrix with focal length 800 at entry `(1, 1)` (the spec's
example calibration). -/
def testCameraMatrix : Nat → Nat → ℚ := fun i j =>
  match i, j with
  | 0, 0 => 800
  | 1, 1 => 800
  | 0, 2 => 320
  | 1, 2 => 240
  | 2, 2 => 1
  | _, _ => 0

/-- The spec's example detection: a box `(100, 50, 300, 250)`. -/
def testDetection : Detection :=
  { cls := "person", bounding_box := { x_min := 100, y_min := 50, x_max := 300, y_max := 250 } }

/-- An open capture device at the default properties. -/
def testCap : Cap :=
  { isOpened := true, propWidth := 640, propHeight := 480, propFps := 60 }

/-- A camera whose device is open. -/
def camOpen : Camera :=
  { camera_id := 0, width := 640, height := 480, fps := 60, cap := some testCap }

/-- A camera that was never started: `self.cap` is still `None`. -/
def camClosed : Camera :=
  { camera_id := 0, width := 640, height := 480, fps := 60, cap := none }

/-! ## Theorems -/

/-- Helper: `lookup`/`getKey` on the record object built by `recordToJson`. -/
theorem loadRecord_recordToJson (r : ObjectDetection.ObjRecord) :
    ObjectDetection.loadRecord (ObjectDetection.recordToJson r) = some r := rfl

/-- Helper: reloading the encoded record list yields the original list. -/
theorem loadRecords_map_recordToJson (objs : List ObjectDetection.ObjRecord) :
    ObjectDetection.loadRecords (objs.map ObjectDetection.recordToJson) = some objs := by
  induction objs with
  | nil => rfl
  | cons r rs ih =>
    simp [ObjectDetection.loadRecords, loadRecord_recordToJson, ih]

/-- Helper: the append-loop of `process_frame` is a `map` over the detections. -/
theorem process_frame_foldl_eq_map (camera_matrix : Nat → Nat → ℚ) (object_height : ℚ)
    (l : List Detection) (acc : List ObjectDetection.ObjRecord) :
    l.foldl (fun a obj => a ++ [ObjectDetection.processRecord camera_matrix object_height obj])
        acc =
      acc ++ l.map (ObjectDetection.processRecord camera_matrix object_height) := by
  induction l generalizing acc with
  | nil => simp
  | cons x xs ih => simp [List.foldl_cons, ih]

/-- Helper: the `"objects"` list built by `process_frame` is the map of the
per-detection record over the detector's output. -/
theorem process_frame_objects_eq (camera_matrix : Nat → Nat → ℚ) (object_height : ℚ)
    (detections : List Detection) :
    (ObjectDetection.process_frame camera_matrix object_height detections).objects =
      detections.map (ObjectDetection.processRecord camera_matrix object_height) := by
  unfold ObjectDetection.process_frame
  simpa using process_frame_foldl_eq_map camera_matrix object_height detections []

/-- C1: for every bounding box with `y_max > y_min`, `calculate_distance`
returns exactly `(object_height * focal_length) / (y_max - y_min)` with
`focal_length = camera_matrix[1, 1]`; and on the spec's example
(`camera_matrix[1,1] = 800`, `object_height = 1.7`, box `(100,50,300,250)`)
it returns `6.8 = 34/5`. -/
theorem calculate_distance_formula (camera_matrix : Nat → Nat → ℚ) (object_height : ℚ)
    (bb : BBox) (h : bb.y_min < bb.y_max) :
    ObjectDetection.calculate_distance camera_matrix object_height bb =
      object_height * camera_matrix 1 1 / ((bb.y_max : ℚ) - (bb.y_min : ℚ)) ∧
    ObjectDetection.calculate_distance testCameraMatrix (17/10)
      { x_min := 100, y_min := 50, x_max := 300, y_max := 250 } = 34/5 := by
  constructor
  · unfold ObjectDetection.calculate_distance
    push_cast
    ring
  · norm_num [ObjectDetection.calculate_distance, testCameraMatrix]

/-- Witness for C1 at the spec's example box. -/
theorem calculate_distance_formula_witness :
    ObjectDetection.calculate_distance testCameraMatrix (17/10)
      { x_min := 100, y_min := 50, x_max := 300, y_max := 250 } = 34/5 :=
  (calculate_distance_formula testCameraMatrix (17/10)
    { x_min := 100, y_min := 50, x_max := 300, y_max := 250 } (by decide)).2

/-- C2: `get_center` is exactly the floor-division formula
`(x_min + (x_max - x_min) // 2, y_min + (y_max - y_min) // 2)`, and the
result never rounds past the midpoint away from `x_min` (resp. `y_min`):
twice each coordinate lies in `[min + max - 1, min + max]`. -/
theorem get_center_floor_div (bb : BBox) :
    ObjectDetection.get_center bb =
      (bb.x_min + (bb.x_max - bb.x_min).fdiv 2,
       bb.y_min + (bb.y_max - bb.y_min).fdiv 2) ∧
    bb.x_min + bb.x_max - 1 ≤ 2 * (ObjectDetection.get_center bb).1 ∧
    2 * (ObjectDetection.get_center bb).1 ≤ bb.x_min + bb.x_max ∧
    bb.y_min + bb.y_max - 1 ≤ 2 * (ObjectDetection.get_center bb).2 ∧
    2 * (ObjectDetection.get_center bb).2 ≤ bb.y_min + bb.y_max := by
  have ex : (bb.x_max - bb.x_min).fdiv 2 = (bb.x_max - bb.x_min) / 2 :=
    Int.fdiv_eq_ediv _ (by norm_num)
  have ey : (bb.y_max - bb.y_min).fdiv 2 = (bb.y_max - bb.y_min) / 2 :=
    Int.fdiv_eq_ediv _ (by norm_num)
  refine ⟨rfl, ?_, ?_, ?_, ?_⟩ <;>
    simp only [ObjectDetection.get_center, ex, ey] <;> omega

/-- C3 counterexample: on the degenerate box `(100, 50, 300, 50)` (pixel
height `0`) the source `calculate_distance` still RETURNS a value — the
junk quotient, `0` in the `ℚ` embedding (float `inf` in numpy) — while the
explicitly guarded behaviour the claim describes would fail with an error:
the source has no such guard. -/
theorem calculate_distance_unguarded_cx :
    ObjectDetection.calculate_distance testCameraMatrix (17/10)
      { x_min := 100, y_min := 50, x_max := 300, y_max := 50 } = 0 ∧
    ObjectDetection.calculate_distance_guarded testCameraMatrix (17/10)
      { x_min := 100, y_min := 50, x_max := 300, y_max := 50 } =
      Except.error "Error: pixel height is zero" := by
  constructor
  · norm_num [ObjectDetection.calculate_distance, testCameraMatrix]
  · rfl

/-- C3 amended: `calculate_distance` performs the division unconditionally,
with no explicit guard: it agrees with the guarded version exactly on boxes
with `y_max ≠ y_min`, and on `y_max = y_min` it returns the junk value of
the zero-denominator division (`0` in `ℚ`; `inf` in numpy floats) where the
guarded version fails. -/
theorem calculate_distance_guard_agreement (camera_matrix : Nat → Nat → ℚ)
    (object_height : ℚ) (bb : BBox) :
    (bb.y_max - bb.y_min ≠ 0 →
      ObjectDetection.calculate_distance_guarded camera_matrix object_height bb =
        Except.ok (ObjectDetection.calculate_distance camera_matrix object_height bb)) ∧
    (bb.y_max - bb.y_min = 0 →
      ObjectDetection.calculate_distance_guarded camera_matrix object_height bb =
        Except.error "Error: pixel height is zero" ∧
      ObjectDetection.calculate_distance camera_matrix object_height bb = 0) := by
  unfold ObjectDetection.calculate_distance ObjectDetection.calculate_distance_guarded
  constructor
  · intro h
    simp [h]
  · intro h
    simp [h]

/-- Witness for the amended C3 on a non-degenerate and a degenerate box. -/
theorem calculate_distance_guard_agreement_witness :
    ObjectDetection.calculate_distance_guarded testCameraMatrix (17/10)
      { x_min := 100, y_min := 50, x_max := 300, y_max := 250 } =
      Except.ok (ObjectDetection.calculate_distance testCameraMatrix (17/10)
        { x_min := 100, y_min := 50, x_max := 300, y_max := 250 }) ∧
    ObjectDetection.calculate_distance testCameraMatrix (17/10)
      { x_min := 100, y_min := 50, x_max := 300, y_max := 50 } = 0 :=
  ⟨(calculate_distance_guard_agreement testCameraMatrix (17/10)
      { x_min := 100, y_min := 50, x_max := 300, y_max := 250 }).1 (by decide),
   ((calculate_distance_guard_agreement testCameraMatrix (17/10)
      { x_min := 100, y_min := 50, x_max := 300, y_max := 50 }).2 (by decide)).2⟩

/-- C4: whenever the device is not open (`cap` still `None`, or the device
closed), `get_frame` fails with the capture error and never returns a frame;
and when a read from an open device fails it also fails with a capture
error. -/
theorem get_frame_requires_open {F : Type} (cam : Camera) (readResult : Option F) :
    (cam.is_opened = false →
      cam.get_frame readResult = Except.error "Error: Camera is not opened") ∧
    (cam.is_opened = true → readResult = none →
      cam.get_frame readResult =
        Except.error "Error: Failed to capture frame from the camera") := by
  cases hcap : cam.cap with
  | none => simp [Camera.get_frame, Camera.is_opened, hcap]
  | some c =>
    cases hco : c.isOpened <;> cases readResult <;>
      simp [Camera.get_frame, Camera.is_opened, hcap, hco]

/-- Witness for C4: an unopened camera and a failed read on an open camera. -/
theorem get_frame_requires_open_witness :
    camClosed.get_frame (some (0 : ℕ)) = Except.error "Error: Camera is not opened" ∧
    camOpen.get_frame (none : Option ℕ) =
      Except.error "Error: Failed to capture frame from the camera" :=
  ⟨(get_frame_requires_open camClosed (some (0 : ℕ))).1 rfl,
   (get_frame_requires_open camOpen (none : Option ℕ)).2 rfl rfl⟩

/-- C5: `stop` is idempotent on every camera state — stopping twice is the
same state as stopping once — and after `stop` the camera reports
`is_opened() = False`.  (`stop` is total: it raises nothing in any state.) -/
theorem stop_idempotent (cam : Camera) :
    cam.stop.stop = cam.stop ∧ cam.stop.is_opened = false := by
  cases hcap : cam.cap with
  | none => simp [Camera.stop, Camera.is_opened, hcap]
  | some c =>
    cases hco : c.isOpened <;>
      simp [Camera.stop, Camera.is_opened, Cap.release, hcap, hco]

/-- C6: serialization round-trips: reloading the JSON written by
`save_to_json` yields the same object list — same class labels, same
distances, same centers, in the same order. -/
theorem save_to_json_roundtrip (od : ObjectDetection.ObjectData) :
    ObjectDetection.json_load_objects (ObjectDetection.save_to_json od) = some od := by
  unfold ObjectDetection.json_load_objects ObjectDetection.save_to_json
  simp [ObjectDetection.Json.getKey, loadRecords_map_recordToJson]

/-- C7: `process_frame` produces exactly one record per detection, and the
`"objects"` list preserves the detector's output order: the `i`-th record
is the record of the `i`-th detection. -/
theorem process_frame_one_record_per_detection (camera_matrix : Nat → Nat → ℚ)
    (object_height : ℚ) (detections : List Detection) :
    (ObjectDetection.process_frame camera_matrix object_height detections).objects.length =
      detections.length ∧
    ∀ i (h : i < detections.length),
      (ObjectDetection.process_frame camera_matrix object_height detections).objects[i]? =
        some (ObjectDetection.processRecord camera_matrix object_height
          (detections.get ⟨i, h⟩)) := by
  refine ⟨by simp [process_frame_objects_eq], fun i h => ?_⟩
  rw [process_frame_objects_eq]
  simp [List.getElem?_eq_getElem, h]

/-- Witness for C7 on a one-detection frame. -/
theorem process_frame_one_record_per_detection_witness :
    (ObjectDetection.process_frame testCameraMatrix (17/10) [testDetection]).objects[0]? =
      some (ObjectDetection.processRecord testCameraMatrix (17/10)
        (([testDetection] : List Detection).get ⟨0, by norm_num⟩)) :=
  (process_frame_one_record_per_detection testCameraMatrix (17/10) [testDetection]).2 0
    (by norm_num)

/-- C8 counterexample: the serialized record of the spec's example detection
has no `"bounding_box"` entry at all (while it does carry `"class"`): the
code serializes only class, distance and center, not the bounding box. -/
theorem serialized_record_missing_bbox_cx :
    (ObjectDetection.recordToJson
        (ObjectDetection.processRecord testCameraMatrix (17/10) testDetection)).getKey
        "bounding_box" = none ∧
    (ObjectDetection.recordToJson
        (ObjectDetection.processRecord testCameraMatrix (17/10) testDetection)).getKey
        "class" = some (ObjectDetection.Json.str "person") := by
  constructor <;> rfl

/-- C8 amended: every record in the serialized `"objects"` sequence contains
exactly the keys `"class"`, `"distance"` and `"center"` — three of the four
`DetectedObject` fields; the bounding box is not serialized. -/
theorem serialized_record_fields (camera_matrix : Nat → Nat → ℚ) (object_height : ℚ)
    (detections : List Detection) :
    ObjectDetection.save_to_json
        (ObjectDetection.process_frame camera_matrix object_height detections) =
      ObjectDetection.Json.obj
        [("objects", ObjectDetection.Json.arr
          ((ObjectDetection.process_frame camera_matrix object_height detections).objects.map
            ObjectDetection.recordToJson))] ∧
    ∀ j ∈ (ObjectDetection.process_frame camera_matrix object_height detections).objects.map
        ObjectDetection.recordToJson,
      j.keys = ["class", "distance", "center"] := by
  refine ⟨rfl, fun j hj => ?_⟩
  rw [List.mem_map] at hj
  obtain ⟨r, _, rfl⟩ := hj
  rfl

/-- Witness for the amended C8 on a one-detection frame. -/
theorem serialized_record_fields_witness :
    (ObjectDetection.recordToJson
        (ObjectDetection.processRecord testCameraMatrix (17/10) testDetection)).keys =
      ["class", "distance", "center"] :=
  (serialized_record_fields testCameraMatrix (17/10) [testDetection]).2
    (ObjectDetection.recordToJson
      (ObjectDetection.processRecord testCameraMatrix (17/10) testDetection))
    (List.mem_singleton.mpr rfl)

/-- C9: `set_resolution` updates the stored width/height and leaves
`camera_id` and `fps` unchanged; `set_fps` updates only the stored fps; and
each setter writes its new values to the capture device exactly when the
device is open (otherwise `cap` is untouched). -/
theorem setters_update_fields (cam : Camera) (w h f : ℤ) :
    ((cam.set_resolution w h).width = w ∧ (cam.set_resolution w h).height = h ∧
      (cam.set_resolution w h).camera_id = cam.camera_id ∧
      (cam.set_resolution w h).fps = cam.fps) ∧
    ((cam.set_fps f).fps = f ∧ (cam.set_fps f).camera_id = cam.camera_id ∧
      (cam.set_fps f).width = cam.width ∧ (cam.set_fps f).height = cam.height) ∧
    (cam.is_opened = false →
      (cam.set_resolution w h).cap = cam.cap ∧ (cam.set_fps f).cap = cam.cap) ∧
    (∀ c, cam.cap = some c → c.isOpened = true →
      (cam.set_resolution w h).cap = some ((c.set .frameWidth w).set .frameHeight h) ∧
      (cam.set_fps f).cap = some (c.set .fpsProp f)) := by
  cases hcap : cam.cap with
  | none => simp [Camera.set_resolution, Camera.set_fps, Camera.is_opened, hcap]
  | some c =>
    cases hco : c.isOpened <;>
      simp [Camera.set_resolution, Camera.set_fps, Camera.is_opened, hcap, hco]

/-- Witness for C9: the open camera's device receives the new values. -/
theorem setters_update_fields_witness :
    (camOpen.set_resolution 800 600).cap =
      some ((testCap.set .frameWidth 800).set .frameHeight 600) ∧
    (camOpen.set_fps 30).cap = some (testCap.set .fpsProp 30) :=
  (setters_update_fields camOpen 800 600 30).2.2.2 testCap rfl rfl

/-- C10: `is_opened` is total: with `cap` still `None` it returns `False`
rather than raising, and with a device present it reports that device's
open state. -/
theorem is_opened_total_spec (cam : Camera) :
    (cam.cap = none → cam.is_opened = false) ∧
    (∀ c, cam.cap = some c → cam.is_opened = c.isOpened) := by
  cases hcap : cam.cap <;> simp [Camera.is_opened, hcap]

/-- Witness for C10: the never-started camera and an open camera. -/
theorem is_opened_total_spec_witness :
    camClosed.is_opened = false ∧ camOpen.is_opened = testCap.isOpened :=
  ⟨(is_opened_total_spec camClosed).1 rfl, (is_opened_total_spec camOpen).2 testCap rfl⟩
